import Mathlib

set_option maxRecDepth 8000

/-!
Shallow embedding of the AIDA-X "aidadsp-loader" DSP core
(src/src/aidadsp-plugin.cpp), together with theorems checking the
natural-language specification of the plugin against that code.

Sample values and gain coefficients are modelled as real numbers.
The parts of the repository that the plugin file includes but that are
not part of the given sources (Biquad.cpp, ExpSmoother.hpp,
model_variant.hpp, the JSON library) are modelled from the spec; every
such definition carries a doc comment starting with "Modelled from the
spec:".  Everything else is translated directly from aidadsp-plugin.cpp.
-/

namespace AidaX

noncomputable section

/-- Modelled from the spec: the filter-type enumeration ("low-pass,
high-pass, low-shelf, high-shelf, peak, band-pass") selecting which
coefficient formula a Biquad uses (Biquad.cpp is not under src/). -/
inductive FilterType
  | lowpass
  | highpass
  | lowshelf
  | highshelf
  | peak
  | bandpass
deriving DecidableEq

/-- The five feed-forward / feedback coefficients of one biquad stage. -/
structure BiquadCoeffs where
  a0 : ℝ
  a1 : ℝ
  a2 : ℝ
  b1 : ℝ
  b2 : ℝ

/-- A coefficient formula: from (type, normalized frequency, Q, peak gain
in dB) to the five coefficients.  The audio-EQ cookbook formulas live in
Biquad.cpp, which is not under src/, so the formula is kept abstract and
passed as a parameter to the setters that recompute coefficients. -/
abbrev CalcBiquadFn := FilterType → ℝ → ℝ → ℝ → BiquadCoeffs

/-- Modelled from the spec: one second-order IIR stage (Biquad.cpp is not
under src/): last-known type / frequency / Q / gain parameters, the five
coefficients, and the two delay registers of the direct-form-II-transposed
recurrence. -/
structure Biquad where
  ftype : FilterType
  Fc : ℝ
  Q : ℝ
  peakGain : ℝ
  coeffs : BiquadCoeffs
  z1 : ℝ
  z2 : ℝ

/-- Modelled from the spec: "process(sample) -> sample applies the
direct-form-II transposed (or equivalent) recurrence using and updating
the two-sample history".  Returns the output sample and the filter with
updated delay registers; coefficients are untouched. -/
def Biquad.process (b : Biquad) (x : ℝ) : ℝ × Biquad :=
  let out := x * b.coeffs.a0 + b.z1
  (out,
   { b with
     z1 := x * b.coeffs.a1 + b.z2 - b.coeffs.b1 * out
     z2 := x * b.coeffs.a2 - b.coeffs.b2 * out })

/-- Modelled from the spec: "setBiquad(type, normalizedFreq, Q, gainDb)
recomputes all five coefficients ... for the given type"; the delay
registers are left alone (coefficients and state are independently
mutable). -/
def Biquad.setBiquad (b : Biquad) (cf : CalcBiquadFn) (t : FilterType)
    (fc q g : ℝ) : Biquad :=
  { b with ftype := t, Fc := fc, Q := q, peakGain := g, coeffs := cf t fc q g }

/-- Modelled from the spec: "setFc ... recomputes coefficients using the
last-known other parameters". -/
def Biquad.setFc (b : Biquad) (cf : CalcBiquadFn) (fc : ℝ) : Biquad :=
  { b with Fc := fc, coeffs := cf b.ftype fc b.Q b.peakGain }

/-- Modelled from the spec: "setQ ... recomputes coefficients using the
last-known other parameters". -/
def Biquad.setQ (b : Biquad) (cf : CalcBiquadFn) (q : ℝ) : Biquad :=
  { b with Q := q, coeffs := cf b.ftype b.Fc q b.peakGain }

/-- Modelled from the spec: "setPeakGain ... recomputes coefficients using
the last-known other parameters". -/
def Biquad.setPeakGain (b : Biquad) (cf : CalcBiquadFn) (g : ℝ) : Biquad :=
  { b with peakGain := g, coeffs := cf b.ftype b.Fc b.Q g }

/-- Modelled from the spec: the exponential parameter smoother
(ExpSmoother.hpp is not under src/): current value, target value, the
per-sample decay coefficient, and the time constant it is derived from. -/
structure ExpSmoother where
  coeff : ℝ
  target : ℝ
  current : ℝ
  timeConstant : ℝ

/-- Modelled from the spec: "setTimeConstant(seconds)". -/
def ExpSmoother.setTimeConstant (s : ExpSmoother) (tc : ℝ) : ExpSmoother :=
  { s with timeConstant := tc }

/-- Modelled from the spec: "setSampleRate(Hz)"; together with the time
constant it determines the decay coefficient exp(-1 / (timeConstant ×
sampleRate)). -/
def ExpSmoother.setSampleRate (s : ExpSmoother) (sr : ℝ) : ExpSmoother :=
  { s with coeff := Real.exp (-1 / (s.timeConstant * sr)) }

/-- Modelled from the spec: "setTarget(v) changes the destination value
without resetting current". -/
def ExpSmoother.setTarget (s : ExpSmoother) (t : ℝ) : ExpSmoother :=
  { s with target := t }

/-- Modelled from the spec: "clearToTarget() sets current = target
immediately". -/
def ExpSmoother.clearToTarget (s : ExpSmoother) : ExpSmoother :=
  { s with current := s.target }

/-- Modelled from the spec: "next() advances current = target + α ×
(current − target) and returns the new current". -/
def ExpSmoother.next (s : ExpSmoother) : ℝ × ExpSmoother :=
  let v := s.target + s.coeff * (s.current - s.target)
  (v, { s with current := v })

/-- Source DB_CO: convert a gain in dB to a linear coefficient,
10^(g * 0.05) for g > -90 dB and 0 (hard mute) otherwise. -/
def DB_CO (g : ℝ) : ℝ := if g > -90 then (10 : ℝ) ^ (g * 0.05) else 0

/-- Source PC_CO: scale a percentage to a coefficient in [0, 1]. -/
def PC_CO (g : ℝ) : ℝ := if g < 100 then g / 100 else 1

/-- Source COMMON_Q constant for the tone controls. -/
def COMMON_Q : ℝ := 0.707

/-- Source DEPTH_FREQ constant for the tone controls. -/
def DEPTH_FREQ : ℝ := 75

/-- Source PRESENCE_FREQ constant for the tone controls. -/
def PRESENCE_FREQ : ℝ := 900

/-- Modelled from the spec: one variant of the closed set of supported
network architectures (model_variant.hpp / RTNeural are not under src/):
its declared input width, its hidden recurrent state, and the stateful
single-sample forward capability "process one sample of history into one
sample of output". -/
structure ModelVariantType where
  input_size : ℕ
  state : List ℝ
  forward : List ℝ → ℝ → ℝ × List ℝ

/-- Source DynamicModel: the active-model record (variant plus the
input-skip flag and linear output gain parsed from the document). -/
structure DynamicModel where
  variant : ModelVariantType
  input_skip : Bool
  output_gain : ℝ

/-- Source applyModel, input_skip branch: for each sample
out[i] += forward(out + i) * output_gain, threading the hidden state.
Returns the rewritten buffer and the final hidden state. -/
def applyModelSkipLoop (g : ℝ) (f : List ℝ → ℝ → ℝ × List ℝ) :
    List ℝ → List ℝ → List ℝ × List ℝ
  | s, [] => ([], s)
  | s, x :: xs =>
    let p := f s x
    let rest := applyModelSkipLoop g f p.2 xs
    ((x + p.1 * g) :: rest.1, rest.2)

/-- Source applyModel, replace branch: for each sample
out[i] = forward(out + i) * output_gain, threading the hidden state. -/
def applyModelReplaceLoop (g : ℝ) (f : List ℝ → ℝ → ℝ × List ℝ) :
    List ℝ → List ℝ → List ℝ × List ℝ
  | s, [] => ([], s)
  | s, x :: xs =>
    let p := f s x
    let rest := applyModelReplaceLoop g f p.2 xs
    ((p.1 * g) :: rest.1, rest.2)

/-- Source applyModel: for a single-sample-input variant rewrite the
buffer in place (accumulating when input_skip is set, replacing
otherwise); for any other input width the TODO branch leaves the buffer
untouched.  The returned model carries the updated hidden state. -/
def applyModel (m : DynamicModel) (out : List ℝ) : List ℝ × DynamicModel :=
  if m.variant.input_size = 1 then
    let r :=
      if m.input_skip then
        applyModelSkipLoop m.output_gain m.variant.forward m.variant.state out
      else
        applyModelReplaceLoop m.output_gain m.variant.forward m.variant.state out
    (r.1, { m with variant := { m.variant with state := r.2 } })
  else
    (out, m)

/-- The spec's view of the network stage: the stream of raw
forward(window) outputs over a buffer, threading the hidden state. -/
def forwardOutputs (f : List ℝ → ℝ → ℝ × List ℝ) :
    List ℝ → List ℝ → List ℝ
  | _, [] => []
  | s, x :: xs => (f s x).1 :: forwardOutputs f (f s x).2 xs

/-- Source EqPos enumeration (tone stack before or after the network). -/
inductive EqPos
  | kEqPost
  | kEqPre
deriving DecidableEq

/-- Source MidEqType enumeration (mid stage as peak or band-pass). -/
inductive MidEqType
  | kMidEqPeak
  | kMidEqBandpass
deriving DecidableEq

/-- Source AidaToneControl: the seven biquads, the two gain smoothers and
the routing flags. -/
structure AidaToneControl where
  dc_blocker : Biquad
  in_lpf : Biquad
  bass : Biquad
  mid : Biquad
  treble : Biquad
  depth : Biquad
  presence : Biquad
  pregain : ExpSmoother
  mastergain : ExpSmoother
  net_bypass : Bool
  eq_bypass : Bool
  eq_pos : EqPos
  mid_type : MidEqType

/-- Source applyBiquadFilter: run one biquad over a whole buffer
(out[i] = filter.process(in[i]); the in-place overload coincides with
this one on the list representation).  Returns the filtered buffer and
the filter with updated delay registers. -/
def applyBiquadFilter : Biquad → List ℝ → List ℝ × Biquad
  | b, [] => ([], b)
  | b, x :: xs =>
    let p := b.process x
    let rest := applyBiquadFilter p.2 xs
    (p.1 :: rest.1, rest.2)

/-- Source applyGainRamp: out[i] *= smoother.next() over a whole buffer. -/
def applyGainRamp : ExpSmoother → List ℝ → List ℝ × ExpSmoother
  | s, [] => ([], s)
  | s, x :: xs =>
    let p := s.next
    let rest := applyGainRamp p.2 xs
    ((x * p.1) :: rest.1, rest.2)

/-- Source applyToneControls: if mid_type is band-pass only the mid filter
runs; otherwise depth, bass, mid, treble, presence run in that order,
each over the whole block in place. -/
def applyToneControls (a : AidaToneControl) (out : List ℝ) :
    List ℝ × AidaToneControl :=
  if a.mid_type = MidEqType.kMidEqBandpass then
    let r := applyBiquadFilter a.mid out
    (r.1, { a with mid := r.2 })
  else
    let r1 := applyBiquadFilter a.depth out
    let r2 := applyBiquadFilter a.bass r1.1
    let r3 := applyBiquadFilter a.mid r2.1
    let r4 := applyBiquadFilter a.treble r3.1
    let r5 := applyBiquadFilter a.presence r4.1
    (r5.1,
     { a with depth := r1.2, bass := r2.2, mid := r3.2, treble := r4.2,
              presence := r5.2 })

/-- Source Parameters enumeration (DistrhoPluginInfo header). -/
inductive Parameters
  | kParameterINLPF
  | kParameterPREGAIN
  | kParameterNETBYPASS
  | kParameterEQBYPASS
  | kParameterEQPOS
  | kParameterBASSGAIN
  | kParameterBASSFREQ
  | kParameterMIDGAIN
  | kParameterMIDFREQ
  | kParameterMIDQ
  | kParameterMTYPE
  | kParameterTREBLEGAIN
  | kParameterTREBLEFREQ
  | kParameterDEPTH
  | kParameterPRESENCE
  | kParameterMASTER
  | kParameterCABSIMBYPASS
  | kParameterGLOBALBYPASS
  | kParameterCount
deriving DecidableEq

/-- The mutable state of AidaDSPLoaderPlugin: tone controls, the active
model pointer, the running flag, and the stored parameter values. -/
structure PluginState where
  aida : AidaToneControl
  model : Option DynamicModel
  running : Bool
  parameters : Parameters → ℝ

/-- The observable order of processing stages inside one run call; the
runningFlag events record the stores to the atomic running flag that
bracket the neural-model stage. -/
inductive RunEvent
  | inLowpass
  | preGain
  | toneStack
  | runningFlag (b : Bool)
  | neuralModel
  | dcBlocker
  | masterGain
deriving DecidableEq

/-- Source AidaDSPLoaderPlugin::run, translated stage by stage: input
low-pass, pre-gain ramp, optional pre tone stack, optional neural model
(with the running-flag stores around it), unconditional DC blocker,
optional post tone stack, master gain ramp.  Also returns the list of
stage events in the order the source executes them. -/
def run (st : PluginState) (input : List ℝ) :
    List ℝ × PluginState × List RunEvent :=
  let r1 := applyBiquadFilter st.aida.in_lpf input
  let r2 := applyGainRamp st.aida.pregain r1.1
  let a2 := { st.aida with in_lpf := r1.2, pregain := r2.2 }
  let pre :=
    if ¬a2.eq_bypass ∧ a2.eq_pos = EqPos.kEqPre then
      let rt := applyToneControls a2 r2.1
      (rt.1, rt.2, [RunEvent.toneStack])
    else (r2.1, a2, ([] : List RunEvent))
  let md :=
    match st.model with
    | some m =>
      if ¬pre.2.1.net_bypass then
        let rm := applyModel m pre.1
        (rm.1, some rm.2, false,
         [RunEvent.runningFlag true, RunEvent.neuralModel,
          RunEvent.runningFlag false])
      else (pre.1, some m, st.running, ([] : List RunEvent))
    | none => (pre.1, none, st.running, ([] : List RunEvent))
  let r5 := applyBiquadFilter pre.2.1.dc_blocker md.1
  let a5 := { pre.2.1 with dc_blocker := r5.2 }
  let post :=
    if ¬a5.eq_bypass ∧ a5.eq_pos = EqPos.kEqPost then
      let rt := applyToneControls a5 r5.1
      (rt.1, rt.2, [RunEvent.toneStack])
    else (r5.1, a5, ([] : List RunEvent))
  let r7 := applyGainRamp post.2.1.mastergain post.1
  (r7.1,
   { st with aida := { post.2.1 with mastergain := r7.2 },
             model := md.2.1, running := md.2.2.1 },
   [RunEvent.inLowpass, RunEvent.preGain] ++ pre.2.2 ++ md.2.2.2 ++
     [RunEvent.dcBlocker] ++ post.2.2 ++ [RunEvent.masterGain])

/-- The per-block pipeline written from the spec's seven numbered stages:
1 input low-pass, 2 pre-gain ramp, 3 tone stack when the equalizer is
enabled and positioned pre, 4 the active model when the network is
enabled (marked running around the inference), 5 the DC blocker always,
6 tone stack when the equalizer is enabled and positioned post, 7 master
gain ramp. -/
def runSpec (st : PluginState) (input : List ℝ) :
    List ℝ × PluginState × List RunEvent :=
  let s1 := applyBiquadFilter st.aida.in_lpf input
  let s2 := applyGainRamp st.aida.pregain s1.1
  let a := { st.aida with in_lpf := s1.2, pregain := s2.2 }
  let s3 :=
    if a.eq_bypass = false ∧ a.eq_pos = EqPos.kEqPre then
      applyToneControls a s2.1
    else (s2.1, a)
  let ev3 : List RunEvent :=
    if a.eq_bypass = false ∧ a.eq_pos = EqPos.kEqPre then
      [RunEvent.toneStack]
    else []
  let s4 :
      List ℝ × Option DynamicModel × Bool × List RunEvent :=
    match st.model, s3.2.net_bypass with
    | some m, false =>
      let rm := applyModel m s3.1
      (rm.1, some rm.2, false,
       [RunEvent.runningFlag true, RunEvent.neuralModel,
        RunEvent.runningFlag false])
    | some m, true => (s3.1, some m, st.running, [])
    | none, _ => (s3.1, none, st.running, [])
  let s5 := applyBiquadFilter s3.2.dc_blocker s4.1
  let a5 := { s3.2 with dc_blocker := s5.2 }
  let s6 :=
    if a5.eq_bypass = false ∧ a5.eq_pos = EqPos.kEqPost then
      applyToneControls a5 s5.1
    else (s5.1, a5)
  let ev6 : List RunEvent :=
    if a5.eq_bypass = false ∧ a5.eq_pos = EqPos.kEqPost then
      [RunEvent.toneStack]
    else []
  let s7 := applyGainRamp s6.2.mastergain s6.1
  (s7.1,
   { st with aida := { s6.2 with mastergain := s7.2 },
             model := s4.2.1, running := s4.2.2.1 },
   [RunEvent.inLowpass, RunEvent.preGain] ++ ev3 ++ s4.2.2.2 ++
     [RunEvent.dcBlocker] ++ ev6 ++ [RunEvent.masterGain])

/-- A memory of audio samples indexed by absolute position; used to state
the aliasing discipline of run on its raw input/output pointers. -/
abbrev Heap := ℕ → ℝ

/-- One processing loop over memory, mirroring the source's
"for (i = 0; i < numSamples; ++i) out[i] = step(in[i])" pointer loops:
read at rd, write at wr, advance both, threading the stage state.  The
in-place loops are the rd = wr instance. -/
def procLoop {σ : Type} (f : σ → ℝ → ℝ × σ) :
    σ → Heap → ℕ → ℕ → ℕ → Heap × σ
  | s, h, _, _, 0 => (h, s)
  | s, h, rd, wr, n + 1 =>
    let p := f s (h rd)
    procLoop f p.2 (fun x => if x = wr then p.1 else h x) (rd + 1) (wr + 1) n

/-- The per-sample step of a biquad stage. -/
def biquadStep (b : Biquad) (x : ℝ) : ℝ × Biquad := b.process x

/-- The per-sample step of a gain-ramp stage (out[i] *= next()). -/
def gainRampStep (s : ExpSmoother) (x : ℝ) : ℝ × ExpSmoother :=
  let p := s.next
  (x * p.1, p.2)

/-- The per-sample step of the model stage with input_skip set. -/
def modelSkipStep (g : ℝ) (f : List ℝ → ℝ → ℝ × List ℝ)
    (s : List ℝ) (x : ℝ) : ℝ × List ℝ :=
  let p := f s x
  (x + p.1 * g, p.2)

/-- The per-sample step of the model stage with input_skip clear. -/
def modelReplaceStep (g : ℝ) (f : List ℝ → ℝ → ℝ × List ℝ)
    (s : List ℝ) (x : ℝ) : ℝ × List ℝ :=
  let p := f s x
  (p.1 * g, p.2)

/-- Source applyToneControls on the memory representation: the same
dispatch and filter order as applyToneControls, as in-place loops over
the block at base. -/
def applyToneControlsH (a : AidaToneControl) (h : Heap) (base n : ℕ) :
    Heap × AidaToneControl :=
  if a.mid_type = MidEqType.kMidEqBandpass then
    let r := procLoop biquadStep a.mid h base base n
    (r.1, { a with mid := r.2 })
  else
    let r1 := procLoop biquadStep a.depth h base base n
    let r2 := procLoop biquadStep a.bass r1.1 base base n
    let r3 := procLoop biquadStep a.mid r2.1 base base n
    let r4 := procLoop biquadStep a.treble r3.1 base base n
    let r5 := procLoop biquadStep a.presence r4.1 base base n
    (r5.1,
     { a with depth := r1.2, bass := r2.2, mid := r3.2, treble := r4.2,
              presence := r5.2 })

/-- Source applyModel on the memory representation: the same branches as
applyModel, as in-place loops over the block at base. -/
def applyModelH (m : DynamicModel) (h : Heap) (base n : ℕ) :
    Heap × DynamicModel :=
  if m.variant.input_size = 1 then
    let r :=
      if m.input_skip then
        procLoop (modelSkipStep m.output_gain m.variant.forward)
          m.variant.state h base base n
      else
        procLoop (modelReplaceStep m.output_gain m.variant.forward)
          m.variant.state h base base n
    (r.1, { m with variant := { m.variant with state := r.2 } })
  else
    (h, m)

/-- Source AidaDSPLoaderPlugin::run on the memory representation: the
input buffer is the n samples at inBase, the output buffer the n samples
at outBase.  The first stage reads the input buffer and writes the
output buffer; every later stage reads and writes the output buffer in
place, exactly as the source's pointer loops do. -/
def runHeap (st : PluginState) (h : Heap) (inBase outBase n : ℕ) :
    Heap × PluginState :=
  let r1 := procLoop biquadStep st.aida.in_lpf h inBase outBase n
  let r2 := procLoop gainRampStep st.aida.pregain r1.1 outBase outBase n
  let a2 : AidaToneControl := { st.aida with in_lpf := r1.2, pregain := r2.2 }
  let pre : Heap × AidaToneControl :=
    if ¬a2.eq_bypass ∧ a2.eq_pos = EqPos.kEqPre then
      applyToneControlsH a2 r2.1 outBase n
    else (r2.1, a2)
  let md : Heap × Option DynamicModel × Bool :=
    match st.model with
    | some m =>
      if ¬pre.2.net_bypass then
        let rm := applyModelH m pre.1 outBase n
        (rm.1, some rm.2, false)
      else (pre.1, some m, st.running)
    | none => (pre.1, none, st.running)
  let r5 := procLoop biquadStep pre.2.dc_blocker md.1 outBase outBase n
  let a5 : AidaToneControl := { pre.2 with dc_blocker := r5.2 }
  let post : Heap × AidaToneControl :=
    if ¬a5.eq_bypass ∧ a5.eq_pos = EqPos.kEqPost then
      applyToneControlsH a5 r5.1 outBase n
    else (r5.1, a5)
  let r7 := procLoop gainRampStep post.2.mastergain post.1 outBase outBase n
  (r7.1,
   { st with aida := { post.2 with mastergain := r7.2 },
             model := md.2.1, running := md.2.2 })

/-- Modelled from the spec: the model document as setState reads it
(nlohmann::json is not under src/).  parsed is whether the stream parses
at all; in_shape_last is the last element of in_shape as an integer
(none when in_shape is missing or empty, in which case the access
throws); in_skip and out_gain are some exactly when those fields are
numeric; arch is the constructed-and-reset network variant when
custom_model_creator recognizes a known architecture, none otherwise. -/
structure ModelDoc where
  parsed : Bool
  in_shape_last : Option ℤ
  in_skip : Option ℤ
  out_gain : Option ℝ
  arch : Option ModelVariantType

/-- Source setState: the in_skip value, defaulting to 0 when the field is
absent or not a number. -/
def getInputSkip (doc : ModelDoc) : ℤ :=
  match doc.in_skip with
  | some k => k
  | none => 0

/-- Source setState: the linear output gain, DB_CO(out_gain) when the
field is numeric and unity otherwise. -/
def getOutputGain (doc : ModelDoc) : ℝ :=
  match doc.out_gain with
  | some g => DB_CO g
  | none => 1

/-- Source setState: whether a numeric in_skip value is rejected
(in_skip > 1 throws). -/
def inSkipUnsupported (doc : ModelDoc) : Bool :=
  match doc.in_skip with
  | some k => decide (k > 1)
  | none => false

/-- The spec's "absent or malformed" document condition: the stream does
not parse, or the in_shape access throws (missing or empty array). -/
def documentUnparseable (doc : ModelDoc) : Bool :=
  !doc.parsed || doc.in_shape_last.isNone

/-- The spec's unsupported-width condition: the last element of in_shape
is greater than 1. -/
def inShapeTooWide (doc : ModelDoc) : Bool :=
  match doc.in_shape_last with
  | some w => decide (w > 1)
  | none => false

/-- The spec's fail-fast taxonomy for a load: unparseable/absent or
malformed document, input width greater than one, unsupported skip value,
or no known architecture matching the document. -/
def loadRejects (doc : ModelDoc) : Bool :=
  documentUnparseable doc || inShapeTooWide doc || inSkipUnsupported doc ||
    doc.arch.isNone

/-- Source setState, load phase: parse checks, input_skip / output_gain
extraction, architecture construction, then the priming pass of
applyModel over a zero-initialized buffer of 2048 samples whose buffer
output is discarded; returns the model to publish, or none when any step
throws (every throw is caught and the function returns early). -/
def loadModel (doc : ModelDoc) : Option DynamicModel :=
  if !doc.parsed then none
  else
    match doc.in_shape_last with
    | none => none
    | some w =>
      if w > 1 then none
      else if inSkipUnsupported doc then none
      else
        match doc.arch with
        | none => none
        | some v =>
          let newmodel : DynamicModel :=
            { variant := v
              input_skip := getInputSkip doc != 0
              output_gain := getOutputGain doc }
          let primed := applyModel newmodel (List.replicate 2048 0)
          some primed.2

/-- Source setState: ignore keys other than "json"; on a failed load
return with the state untouched; on success publish the new model.  The
second component is the superseded model instance freed during the call:
the source saves the old pointer and polls the running flag, but never
frees it, so this is always none. -/
def setState (key : String) (doc : ModelDoc) (st : PluginState) :
    PluginState × Option DynamicModel :=
  if key = "json" then
    match loadModel doc with
    | none => (st, none)
    | some m => ({ st with model := some m }, none)
  else (st, none)

/-- Source AidaToneControl::setSampleRate: recompute every filter from
the stored parameter values at the new rate; the mid filter's type is
chosen here from mid_type (band-pass against peak). -/
def AidaToneControl.setSampleRate (a : AidaToneControl) (cf : CalcBiquadFn)
    (p : Parameters → ℝ) (sampleRate : ℝ) : AidaToneControl :=
  { a with
    dc_blocker := a.dc_blocker.setFc cf (35 / sampleRate)
    in_lpf := a.in_lpf.setFc cf (PC_CO (p Parameters.kParameterINLPF) * 0.5)
    bass := a.bass.setBiquad cf FilterType.lowshelf
      (p Parameters.kParameterBASSFREQ / sampleRate) COMMON_Q
      (p Parameters.kParameterBASSGAIN)
    mid := a.mid.setBiquad cf
      (if a.mid_type = MidEqType.kMidEqBandpass then FilterType.bandpass
       else FilterType.peak)
      (p Parameters.kParameterMIDFREQ / sampleRate)
      (p Parameters.kParameterMIDQ)
      (p Parameters.kParameterMIDGAIN)
    treble := a.treble.setBiquad cf FilterType.highshelf
      (p Parameters.kParameterTREBLEFREQ / sampleRate) COMMON_Q
      (p Parameters.kParameterTREBLEGAIN)
    depth := a.depth.setBiquad cf FilterType.highshelf
      (DEPTH_FREQ / sampleRate) COMMON_Q (p Parameters.kParameterDEPTH)
    presence := a.presence.setBiquad cf FilterType.highshelf
      (PRESENCE_FREQ / sampleRate) COMMON_Q (p Parameters.kParameterPRESENCE)
    pregain := ((a.pregain.setSampleRate sampleRate).setTarget
      (DB_CO (p Parameters.kParameterPREGAIN)))
    mastergain := ((a.mastergain.setSampleRate sampleRate).setTarget
      (DB_CO (p Parameters.kParameterMASTER))) }

/-- Source AidaDSPLoaderPlugin::setParameterValue: store the value, then
dispatch on the parameter index; the MTYPE case only flips the mid_type
routing flag and does not touch the mid Biquad.  sampleRate stands for
the source's getSampleRate() call. -/
def setParameterValue (cf : CalcBiquadFn) (sampleRate : ℝ)
    (st : PluginState) (index : Parameters) (value : ℝ) : PluginState :=
  let st1 :=
    { st with parameters := fun i => if i = index then value else st.parameters i }
  match index with
  | Parameters.kParameterINLPF =>
    { st1 with aida :=
      { st1.aida with in_lpf := st1.aida.in_lpf.setFc cf (PC_CO value * 0.5) } }
  | Parameters.kParameterPREGAIN =>
    { st1 with aida :=
      { st1.aida with pregain := st1.aida.pregain.setTarget (DB_CO value) } }
  | Parameters.kParameterNETBYPASS =>
    { st1 with aida := { st1.aida with net_bypass := decide (value > 0.5) } }
  | Parameters.kParameterEQBYPASS =>
    { st1 with aida := { st1.aida with eq_bypass := decide (value > 0.5) } }
  | Parameters.kParameterEQPOS =>
    { st1 with aida :=
      { st1.aida with
        eq_pos := if value > 0.5 then EqPos.kEqPre else EqPos.kEqPost } }
  | Parameters.kParameterBASSGAIN =>
    { st1 with aida :=
      { st1.aida with bass := st1.aida.bass.setPeakGain cf value } }
  | Parameters.kParameterBASSFREQ =>
    { st1 with aida :=
      { st1.aida with bass := st1.aida.bass.setFc cf (value / sampleRate) } }
  | Parameters.kParameterMIDGAIN =>
    { st1 with aida :=
      { st1.aida with mid := st1.aida.mid.setPeakGain cf value } }
  | Parameters.kParameterMIDFREQ =>
    { st1 with aida :=
      { st1.aida with mid := st1.aida.mid.setFc cf (value / sampleRate) } }
  | Parameters.kParameterMIDQ =>
    { st1 with aida :=
      { st1.aida with mid := st1.aida.mid.setQ cf value } }
  | Parameters.kParameterMTYPE =>
    { st1 with aida :=
      { st1.aida with
        mid_type := if value > 0.5 then MidEqType.kMidEqBandpass
                    else MidEqType.kMidEqPeak } }
  | Parameters.kParameterTREBLEGAIN =>
    { st1 with aida :=
      { st1.aida with treble := st1.aida.treble.setPeakGain cf value } }
  | Parameters.kParameterTREBLEFREQ =>
    { st1 with aida :=
      { st1.aida with treble := st1.aida.treble.setFc cf (value / sampleRate) } }
  | Parameters.kParameterDEPTH =>
    { st1 with aida :=
      { st1.aida with depth := st1.aida.depth.setPeakGain cf value } }
  | Parameters.kParameterPRESENCE =>
    { st1 with aida :=
      { st1.aida with presence := st1.aida.presence.setPeakGain cf value } }
  | Parameters.kParameterMASTER =>
    { st1 with aida :=
      { st1.aida with mastergain := st1.aida.mastergain.setTarget (DB_CO value) } }
  | Parameters.kParameterCABSIMBYPASS => st1
  | Parameters.kParameterGLOBALBYPASS => st1
  | Parameters.kParameterCount => st1

/-- A concrete single-sample-input network variant (identity forward)
used by the concrete evaluation theorems. -/
def cVariant : ModelVariantType :=
  { input_size := 1, state := [], forward := fun s x => (x, s) }

/-- A concrete biquad with identity coefficients and cleared registers. -/
def cBiquad : Biquad :=
  { ftype := FilterType.peak, Fc := 0, Q := 0, peakGain := 0,
    coeffs := { a0 := 1, a1 := 0, a2 := 0, b1 := 0, b2 := 0 },
    z1 := 0, z2 := 0 }

/-- A concrete smoother. -/
def cSmoother : ExpSmoother :=
  { coeff := 0, target := 0, current := 0, timeConstant := 1 }

/-- A concrete tone-control block in the default peak routing. -/
def sampleAida : AidaToneControl :=
  { dc_blocker := cBiquad, in_lpf := cBiquad, bass := cBiquad,
    mid := cBiquad, treble := cBiquad, depth := cBiquad,
    presence := cBiquad, pregain := cSmoother, mastergain := cSmoother,
    net_bypass := false, eq_bypass := false, eq_pos := EqPos.kEqPost,
    mid_type := MidEqType.kMidEqPeak }

/-- The concrete tone-control block switched to band-pass routing. -/
def sampleAidaBP : AidaToneControl :=
  { sampleAida with mid_type := MidEqType.kMidEqBandpass }

/-- A concrete plugin state with no model loaded. -/
def sampleState : PluginState :=
  { aida := sampleAida, model := none, running := false,
    parameters := fun _ => 0 }

/-- A concrete model with the input_skip flag set, used as the previously
active model in the hand-off theorems. -/
def mOldSkip : DynamicModel :=
  { variant := cVariant, input_skip := true, output_gain := 1 }

/-- The concrete plugin state holding mOldSkip as the active model. -/
def stOld : PluginState := { sampleState with model := some mOldSkip }

/-- A concrete document that fails to parse. -/
def cDocBad : ModelDoc :=
  { parsed := false, in_shape_last := none, in_skip := none,
    out_gain := none, arch := none }

/-- A concrete well-formed document: parses, single-sample input, no
in_skip or out_gain fields, recognized architecture cVariant. -/
def cDocOk : ModelDoc :=
  { parsed := true, in_shape_last := some 1, in_skip := none,
    out_gain := none, arch := some cVariant }

/-- The well-formed document with an out_gain of -100 dB. -/
def cDocNeg : ModelDoc := { cDocOk with out_gain := some (-100) }

/-- The model the loader builds from cDocOk before priming. -/
def cM0 : DynamicModel :=
  { variant := cVariant, input_skip := false, output_gain := 1 }

/-- The model the loader publishes for cDocOk: cM0 after the priming pass
over 2048 zero samples. -/
def cModelNew : DynamicModel := (applyModel cM0 (List.replicate 2048 0)).2

/-- The priming pass only updates the hidden state: the input_skip flag
survives applyModel. -/
@[simp] theorem applyModel_input_skip (m : DynamicModel) (out : List ℝ) :
    (applyModel m out).2.input_skip = m.input_skip := by
  unfold applyModel
  split <;> rfl

/-- The priming pass only updates the hidden state: output_gain survives
applyModel. -/
@[simp] theorem applyModel_output_gain (m : DynamicModel) (out : List ℝ) :
    (applyModel m out).2.output_gain = m.output_gain := by
  unfold applyModel
  split <;> rfl

@[simp] theorem applyToneControls_net_bypass (a : AidaToneControl)
    (out : List ℝ) : (applyToneControls a out).2.net_bypass = a.net_bypass := by
  unfold applyToneControls
  split <;> rfl

@[simp] theorem applyToneControls_eq_bypass (a : AidaToneControl)
    (out : List ℝ) : (applyToneControls a out).2.eq_bypass = a.eq_bypass := by
  unfold applyToneControls
  split <;> rfl

@[simp] theorem applyToneControls_eq_pos (a : AidaToneControl)
    (out : List ℝ) : (applyToneControls a out).2.eq_pos = a.eq_pos := by
  unfold applyToneControls
  split <;> rfl

@[simp] theorem applyToneControls_dc_blocker (a : AidaToneControl)
    (out : List ℝ) : (applyToneControls a out).2.dc_blocker = a.dc_blocker := by
  unfold applyToneControls
  split <;> rfl

@[simp] theorem applyToneControls_mastergain (a : AidaToneControl)
    (out : List ℝ) : (applyToneControls a out).2.mastergain = a.mastergain := by
  unfold applyToneControls
  split <;> rfl

/-- The skip loop computes the raw forward stream pointwise added onto
the input samples, scaled by the output gain. -/
theorem applyModelSkipLoop_eq (g : ℝ) (f : List ℝ → ℝ → ℝ × List ℝ) :
    ∀ (out s : List ℝ),
      (applyModelSkipLoop g f s out).1 =
        List.zipWith (fun x y => x + y * g) out (forwardOutputs f s out) := by
  intro out
  induction out with
  | nil => intro s; rfl
  | cons x xs ih =>
    intro s
    simp only [applyModelSkipLoop, forwardOutputs, List.zipWith_cons_cons, ih]

/-- The replace loop computes the raw forward stream scaled by the output
gain. -/
theorem applyModelReplaceLoop_eq (g : ℝ) (f : List ℝ → ℝ → ℝ × List ℝ) :
    ∀ (out s : List ℝ),
      (applyModelReplaceLoop g f s out).1 =
        (forwardOutputs f s out).map (fun y => y * g) := by
  intro out
  induction out with
  | nil => intro s; rfl
  | cons x xs ih =>
    intro s
    simp only [applyModelReplaceLoop, forwardOutputs, List.map_cons, ih]

/-- Closed-form description of the whole load phase: it returns none
exactly under the fail-fast conditions, and otherwise publishes the
primed model constructed from the document's fields. -/
theorem loadModel_characterization (doc : ModelDoc) :
    loadModel doc =
      if loadRejects doc = true then none
      else
        doc.arch.map (fun v =>
          (applyModel
            { variant := v, input_skip := getInputSkip doc != 0,
              output_gain := getOutputGain doc }
            (List.replicate 2048 0)).2) := by
  unfold loadModel loadRejects documentUnparseable inShapeTooWide
  cases hp : doc.parsed
  · rfl
  · cases hs : doc.in_shape_last with
    | none => rfl
    | some w =>
      by_cases hw : w > 1
      · simp [hw]
      · cases hk : inSkipUnsupported doc
        · cases ha : doc.arch <;> simp [hw, hk, ha]
        · simp [hw, hk]

/-- A processing loop writing the n cells starting at wr leaves every
other memory cell untouched. -/
theorem procLoop_outside {σ : Type} (f : σ → ℝ → ℝ × σ) :
    ∀ (n : ℕ) (s : σ) (h : Heap) (rd wr j : ℕ),
      j < wr ∨ wr + n ≤ j → (procLoop f s h rd wr n).1 j = h j := by
  intro n
  induction n with
  | zero => intro s h rd wr j _; rfl
  | succ n ih =>
    intro s h rd wr j hj
    have hne : j ≠ wr := by omega
    have hj' : j < wr + 1 ∨ (wr + 1) + n ≤ j := by omega
    simp only [procLoop]
    rw [ih _ _ (rd + 1) (wr + 1) j hj']
    simp [hne]

/-- The tone-control stage writes only the block at base. -/
theorem applyToneControlsH_outside (a : AidaToneControl) (h : Heap)
    (base n j : ℕ) (hj : j < base ∨ base + n ≤ j) :
    (applyToneControlsH a h base n).1 j = h j := by
  unfold applyToneControlsH
  split
  · exact procLoop_outside _ _ _ _ _ _ _ hj
  · simp only
    rw [procLoop_outside _ _ _ _ _ _ _ hj, procLoop_outside _ _ _ _ _ _ _ hj,
        procLoop_outside _ _ _ _ _ _ _ hj, procLoop_outside _ _ _ _ _ _ _ hj,
        procLoop_outside _ _ _ _ _ _ _ hj]

/-- The model stage writes only the block at base. -/
theorem applyModelH_outside (m : DynamicModel) (h : Heap)
    (base n j : ℕ) (hj : j < base ∨ base + n ≤ j) :
    (applyModelH m h base n).1 j = h j := by
  unfold applyModelH
  split
  · split <;> exact procLoop_outside _ _ _ _ _ _ _ hj
  · rfl

/-- The whole run pipeline writes only the output block: every memory
cell outside the n samples at outBase is untouched. -/
theorem runHeap_outside (st : PluginState) (h : Heap)
    (inBase outBase n j : ℕ) (hj : j < outBase ∨ outBase + n ≤ j) :
    (runHeap st h inBase outBase n).1 j = h j := by
  unfold runHeap
  dsimp only
  repeat' split
  all_goals
    repeat
      first
      | rw [procLoop_outside _ _ _ _ _ _ _ hj]
      | rw [applyToneControlsH_outside _ _ _ _ _ hj]
      | rw [applyModelH_outside _ _ _ _ _ hj]

/-- C3: for a single-sample-input model, applyModel writes each sample as
raw_input + forward(window) × output_gain when input_skip is set, and as
forward(window) × output_gain otherwise; for any other input width the
buffer comes back unchanged (a no-op, not an error). -/
theorem applyModel_snapshot_semantics (m : DynamicModel) (out : List ℝ) :
    (applyModel m out).1 =
      if m.variant.input_size = 1 then
        if m.input_skip then
          List.zipWith (fun x y => x + y * m.output_gain) out
            (forwardOutputs m.variant.forward m.variant.state out)
        else
          (forwardOutputs m.variant.forward m.variant.state out).map
            (fun y => y * m.output_gain)
      else out := by
  unfold applyModel
  by_cases h1 : m.variant.input_size = 1
  · by_cases h2 : m.input_skip = true <;>
      simp [h1, h2, applyModelSkipLoop_eq, applyModelReplaceLoop_eq]
  · simp [h1]

/-- C7: applyToneControls dispatch: when mid_type is band-pass only the
mid filter runs over the block and every other stage of the tone stack,
delay registers included, is returned untouched; otherwise depth, bass,
mid, treble, presence run in exactly that order, each in place over the
whole block. -/
theorem applyToneControls_dispatch (a : AidaToneControl) (out : List ℝ) :
    applyToneControls a out =
      if a.mid_type = MidEqType.kMidEqBandpass then
        ((applyBiquadFilter a.mid out).1,
         { dc_blocker := a.dc_blocker, in_lpf := a.in_lpf, bass := a.bass,
           mid := (applyBiquadFilter a.mid out).2, treble := a.treble,
           depth := a.depth, presence := a.presence, pregain := a.pregain,
           mastergain := a.mastergain, net_bypass := a.net_bypass,
           eq_bypass := a.eq_bypass, eq_pos := a.eq_pos,
           mid_type := a.mid_type })
      else
        (let r1 := applyBiquadFilter a.depth out
         let r2 := applyBiquadFilter a.bass r1.1
         let r3 := applyBiquadFilter a.mid r2.1
         let r4 := applyBiquadFilter a.treble r3.1
         let r5 := applyBiquadFilter a.presence r4.1
         (r5.1,
          { a with depth := r1.2, bass := r2.2, mid := r3.2,
                   treble := r4.2, presence := r5.2 })) := by
  unfold applyToneControls
  split <;> rfl

/-- C10: the MTYPE parameter only flips the mid_type routing flag and
leaves the mid Biquad (its type and coefficients included) untouched;
the band-pass-against-peak choice is applied to the mid filter only by
AidaToneControl::setSampleRate. -/
theorem setParameterValue_mtype_deferred (cf : CalcBiquadFn) (sr : ℝ)
    (st : PluginState) (v : ℝ) (p : Parameters → ℝ) (a : AidaToneControl) :
    (setParameterValue cf sr st Parameters.kParameterMTYPE v).aida.mid =
      st.aida.mid ∧
    (setParameterValue cf sr st Parameters.kParameterMTYPE v).aida.mid_type =
      (if v > 0.5 then MidEqType.kMidEqBandpass else MidEqType.kMidEqPeak) ∧
    (a.setSampleRate cf p sr).mid =
      a.mid.setBiquad cf
        (if a.mid_type = MidEqType.kMidEqBandpass then FilterType.bandpass
         else FilterType.peak)
        (p Parameters.kParameterMIDFREQ / sr) (p Parameters.kParameterMIDQ)
        (p Parameters.kParameterMIDGAIN) :=
  ⟨rfl, rfl, rfl⟩

/-- On a non-rejected document the architecture matched. -/
theorem loadRejects_false_arch (doc : ModelDoc) (h : loadRejects doc = false) :
    doc.arch.isNone = false := by
  unfold loadRejects at h
  simp only [Bool.or_eq_false_iff] at h
  exact h.2

/-- A boolean that is not true is false. -/
theorem bool_not_true_false {b : Bool} (h : ¬b = true) : b = false := by
  cases b
  · rfl
  · exact absurd rfl h

/-- C1: any failed load attempt (unparseable or absent document, input
width above one, numeric in_skip above one, or unrecognized
architecture) leaves the whole plugin state untouched, so the prior
model answers identically before and after the attempt. -/
theorem setState_failed_load_keeps_state (doc : ModelDoc) (st : PluginState)
    (input : List ℝ) (h : loadRejects doc = true) :
    (setState "json" doc st).1 = st ∧
    run (setState "json" doc st).1 input = run st input := by
  have hn : loadModel doc = none := by
    rw [loadModel_characterization, if_pos h]
  constructor
  · simp [setState, hn]
  · simp [setState, hn]

/-- Witness for C1: a document that fails to parse, against the concrete
state. -/
theorem setState_failed_load_keeps_state_witness :
    loadRejects cDocBad = true ∧
    ((setState "json" cDocBad sampleState).1 = sampleState ∧
     run (setState "json" cDocBad sampleState).1 [1] = run sampleState [1]) :=
  ⟨rfl, setState_failed_load_keeps_state cDocBad sampleState [1] rfl⟩

/-- C6: the load aborts with no model constructed exactly when the
document is unparseable or malformed, the last in_shape element exceeds
one, a numeric in_skip exceeds one, or no known architecture matches;
a published model's input_skip flag comes from the numeric in_skip field
and defaults to 0 (false) when that field is absent or non-numeric. -/
theorem loadModel_abort_iff (doc : ModelDoc) :
    (loadModel doc).isNone = loadRejects doc ∧
    (loadModel doc).map (fun m => m.input_skip) =
      (if loadRejects doc = true then none
       else some (match doc.in_skip with
                  | some k => k != 0
                  | none => false)) := by
  constructor
  · rw [loadModel_characterization]
    split
    · rename_i h
      simp [h]
    · rename_i h
      have h2 : loadRejects doc = false := bool_not_true_false h
      have ha := loadRejects_false_arch doc h2
      cases harch : doc.arch
      · rw [harch] at ha
        simp at ha
      · simp [harch, h2]
  · rw [loadModel_characterization]
    split
    · rfl
    · rename_i h
      have h2 : loadRejects doc = false := bool_not_true_false h
      have ha := loadRejects_false_arch doc h2
      cases harch : doc.arch
      · rw [harch] at ha
        simp at ha
      · rename_i v
        simp only [harch, Option.map_some', applyModel_input_skip,
                   Option.some.injEq]
        unfold getInputSkip
        cases hk : doc.in_skip <;> simp

/-- C8: a successful load publishes exactly the model obtained by running
applyModel once over a zero-initialized buffer of 2048 samples (the
priming pass, whose buffer output is discarded) on the freshly
constructed model. -/
theorem loadModel_primes_once (doc : ModelDoc) (v : ModelVariantType)
    (h1 : loadRejects doc = false) (h2 : doc.arch = some v) :
    loadModel doc =
      some ((applyModel
        { variant := v, input_skip := getInputSkip doc != 0,
          output_gain := getOutputGain doc } (List.replicate 2048 0)).2) := by
  rw [loadModel_characterization, h1, h2]
  simp

/-- Witness for C8: the concrete well-formed document. -/
theorem loadModel_primes_once_witness :
    loadRejects cDocOk = false ∧ cDocOk.arch = some cVariant ∧
    loadModel cDocOk =
      some ((applyModel
        { variant := cVariant, input_skip := getInputSkip cDocOk != 0,
          output_gain := getOutputGain cDocOk } (List.replicate 2048 0)).2) :=
  ⟨rfl, rfl, loadModel_primes_once cDocOk cVariant rfl rfl⟩

/-- C4 (amended): a published model's output_gain is 10^(g/20) for a
numeric out_gain of g decibels above the -90 dB mute threshold, 0 at or
below that threshold, and unity when the field is absent. -/
theorem out_gain_conversion_amended (doc : ModelDoc) :
    (loadModel doc).map (fun m => m.output_gain) =
      (if loadRejects doc = true then none
       else some (match doc.out_gain with
                  | some g => if g > -90 then (10 : ℝ) ^ (g / 20) else 0
                  | none => 1)) := by
  rw [loadModel_characterization]
  split
  · rfl
  · rename_i h
    have h2 : loadRejects doc = false := bool_not_true_false h
    have ha := loadRejects_false_arch doc h2
    cases harch : doc.arch
    · rw [harch] at ha
      simp at ha
    · rename_i v
      simp only [harch, Option.map_some', applyModel_output_gain,
                 Option.some.injEq]
      unfold getOutputGain DB_CO
      cases hg : doc.out_gain
      · rfl
      · rename_i g
        simp only
        split_ifs with hgt
        · congr 1
          ring_nf
        · rfl

/-- C4 (counterexample): at out_gain = -100 dB the published gain is the
hard mute 0, not 10^(-100/20) as the claim's universal formula states. -/
theorem out_gain_formula_counterexample :
    (loadModel cDocNeg).map (fun m => m.output_gain) ≠
      some ((10 : ℝ) ^ ((-100 : ℝ) / 20)) := by
  have h1 : (loadModel cDocNeg).map (fun m => m.output_gain) = some 0 := by
    rw [loadModel_characterization]
    have hr : loadRejects cDocNeg = false := rfl
    rw [hr]
    have harch : cDocNeg.arch = some cVariant := rfl
    simp only [Bool.false_eq_true, if_false, harch, Option.map_some',
               applyModel_output_gain, Option.some.injEq]
    have hgain : getOutputGain cDocNeg = DB_CO (-100) := rfl
    rw [hgain]
    unfold DB_CO
    rw [if_neg (by norm_num)]
  rw [h1]
  intro h2
  rw [Option.some_inj] at h2
  have h3 : (0 : ℝ) < (10 : ℝ) ^ ((-100 : ℝ) / 20) :=
    Real.rpow_pos_of_pos (by norm_num) _
  rw [← h2] at h3
  exact lt_irrefl 0 h3

/-- C5 (code evaluation): publishing over an active model supersedes it
(the published pointer differs from the old one), yet setState frees
nothing: the superseded instance is never released. -/
theorem setState_never_frees_superseded :
    (setState "json" cDocOk stOld).2 = none ∧
    (setState "json" cDocOk stOld).1.model ≠ stOld.model := by
  constructor
  · rfl
  · intro h
    have h1 : cModelNew = mOldSkip := Option.some.inj h
    have h2 := congrArg DynamicModel.input_skip h1
    simp [cModelNew, cM0, mOldSkip, applyModel_input_skip] at h2

/-- C2: run applies exactly the spec's stage order on the output buffer:
input low-pass, pre-gain ramp, tone stack iff the equalizer is enabled
and positioned pre, the neural model iff the network is enabled and a
model is active (bracketed by the running-flag stores), the DC blocker
always and regardless of every bypass flag, tone stack iff the equalizer
is enabled and positioned post, master gain ramp. -/
theorem run_stage_order_matches_spec (st : PluginState) (input : List ℝ) :
    run st input = runSpec st input := by
  unfold run runSpec
  cases hm : st.model <;>
    cases hb : st.aida.eq_bypass <;>
      cases hp : st.aida.eq_pos <;>
        cases hn : st.aida.net_bypass <;>
          simp [hm, hb, hp, hn]

/-- C9: when the input and output blocks do not overlap, run never writes
the input block: every input sample reads back unchanged after the call. -/
theorem run_preserves_input_buffer (st : PluginState) (h : Heap)
    (inBase outBase n j : ℕ)
    (hdisj : inBase + n ≤ outBase ∨ outBase + n ≤ inBase)
    (hlo : inBase ≤ j) (hhi : j < inBase + n) :
    (runHeap st h inBase outBase n).1 j = h j := by
  apply runHeap_outside
  omega

/-- Witness for C9: a one-sample block at address 0 feeding a one-sample
output block at address 1. -/
theorem run_preserves_input_buffer_witness :
    ((0 : ℕ) + 1 ≤ 1 ∨ (1 : ℕ) + 1 ≤ 0) ∧ (0 : ℕ) ≤ 0 ∧ (0 : ℕ) < 0 + 1 ∧
    (runHeap sampleState (fun _ => 0) 0 1 1).1 0 = (fun _ => (0 : ℝ)) 0 :=
  ⟨Or.inl (by decide), by decide, by decide,
   run_preserves_input_buffer sampleState (fun _ => 0) 0 1 1 0
     (Or.inl (by decide)) (by decide) (by decide)⟩

end

end AidaX
